import Mathlib

/-!
Verification of `cuesubmit/Util.py` (OpenCue job-submission utilities).

We shallowly embed the two functions the specification is about:

* `getPresetFacility` — reads an optional default-facility override from the
  environment variables `RENDER_TO` and `FACILITY`; a Python `if` on the value
  of `os.getenv` tests *truthiness*, so an unset variable and a variable set to
  the empty string behave alike.
* `getCustomScriptParameters` — resolves a script path to a module identifier
  and directory (`os.path.splitext` then `os.path.split`), appends the
  directory to `sys.path`, imports the module through an import oracle, checks
  for the `opencue_render` attribute, then walks the parameters of the entry
  point's signature building a name-keyed descriptor dictionary, enriching
  tuple-annotated parameters whose default has length three with
  `min`/`max`/overwritten `value`.

Python values are modelled by `PyVal`, the annotation vocabulary by `PyType`,
`len(...)` by `pyLen` (returning `none` where Python raises `TypeError`),
indexing by `pyGetItem`, and zero-argument construction `annotation()` by
`pyConstruct`.  Errors raised by the Python code are modelled with
`Except String`.  The process-wide `sys.path` is threaded explicitly: the
function receives the current list and returns the (always mutated) list next
to its result.  Module import (`importlib.import_module`) is an oracle
parameter `importModule`, since which module a name resolves to depends on
the filesystem.
-/

/-- The annotation vocabulary of the entry-point contract: `str`, `int`,
`bool`, and `tuple` (the 3-tuple range convention uses the latter). -/
inductive PyType where
  | str
  | int
  | bool
  | tuple
  deriving DecidableEq, Repr

/-- Python runtime values appearing as parameter defaults. -/
inductive PyVal where
  | str (s : String)
  | int (n : Int)
  | bool (b : Bool)
  | tuple (elems : List PyVal)

/-- `annotation()` — invoking a type of the vocabulary as a zero-argument
constructor, e.g. `str()` is `""`, `int()` is `0`, `bool()` is `False`,
`tuple()` is `()`. -/
def pyConstruct : PyType → PyVal
  | .str => .str ""
  | .int => .int 0
  | .bool => .bool false
  | .tuple => .tuple []

/-- `len(v)`: defined on strings and tuples; `none` models the `TypeError`
Python raises for values with no length. -/
def pyLen : PyVal → Option Nat
  | .str s => some s.length
  | .tuple xs => some xs.length
  | _ => none

/-- `v[i]` for a natural index: defined on strings (yielding a one-character
string) and tuples; `none` models `TypeError`/`IndexError`. -/
def pyGetItem : PyVal → Nat → Option PyVal
  | .str s, i => (s.data[i]?).map fun c => PyVal.str (String.mk [c])
  | .tuple xs, i => xs[i]?
  | _, _ => none

/-- One parameter of the `opencue_render` signature: its name, its type
annotation, and its declared default (`none` models
`inspect.Parameter.empty`, i.e. no default declared). -/
structure Param where
  name : String
  annot : PyType
  default : Option PyVal

/-- One entry of the extracted schema, mirroring the Python dict
`{'name': ..., 'value': ..., 'type': ...}` optionally updated with
`'min'`/`'max'`. -/
structure Descriptor where
  name : String
  value : PyVal
  type : PyType
  min : Option PyVal
  max : Option PyVal

/-- A loaded script module: the names `dir(module)` reports, and the
parameter list of its `opencue_render` function (meaningful only when
`"opencue_render"` is among the attributes). -/
structure ScriptModule where
  attrs : List String
  opencue_render_sig : List Param

/-- Message of the `TypeError` raised by `len(...)` on a value with no
length. -/
def pyLenTypeError : String := "TypeError: object has no len()"

/-- `default_value = param.default; if default_value is inspect.Parameter.empty:
default_value = param.annotation()` -/
def pyDefaultValue (param : Param) : PyVal :=
  match param.default with
  | some v => v
  | none => pyConstruct param.annot

/-- The per-parameter body of the signature walk: build the descriptor
`{'name', 'value', 'type'}` and, when the annotation is exactly `tuple` and
`len(default_value) == 3`, update it with `min`/`max` from elements 0 and 1
and overwrite `value` with element 2.  Evaluating `len` on a length-less
default raises (`Except.error`), as in Python. -/
def processParam (param : Param) : Except String Descriptor :=
  if param.annot = PyType.tuple then
    match pyLen (pyDefaultValue param) with
    | none => Except.error pyLenTypeError
    | some n =>
      if n = 3 then
        match pyGetItem (pyDefaultValue param) 0, pyGetItem (pyDefaultValue param) 1,
            pyGetItem (pyDefaultValue param) 2 with
        | some v0, some v1, some v2 =>
          Except.ok ⟨param.name, v2, param.annot, some v0, some v1⟩
        | _, _, _ => Except.error "IndexError: tuple index out of range"
      else Except.ok ⟨param.name, pyDefaultValue param, param.annot, none, none⟩
  else Except.ok ⟨param.name, pyDefaultValue param, param.annot, none, none⟩

/-- Python dict assignment `d[key] = v`: replace in place when the key is
present, else append (insertion order preserved). -/
def dictInsert (d : List (String × Descriptor)) (key : String) (v : Descriptor) :
    List (String × Descriptor) :=
  if d.any fun kv => kv.fst == key then
    d.map fun kv => if kv.fst == key then (key, v) else kv
  else d ++ [(key, v)]

/-- The `for param in signature.parameters.values()` loop, threading the
`parameters` dict; the first raising parameter aborts the walk. -/
def walkParams : List Param → List (String × Descriptor) →
    Except String (List (String × Descriptor))
  | [], parameters => Except.ok parameters
  | param :: rest, parameters =>
    match processParam param with
    | Except.error e => Except.error e
    | Except.ok desc => walkParams rest (dictInsert parameters param.name desc)

/-- `str.rfind` on a character list: highest index of the character, `-1` if
absent (CPython semantics). -/
def str_rfind (l : List Char) (c : Char) : Int :=
  match l with
  | [] => -1
  | x :: xs =>
    let r := str_rfind xs c
    if r ≥ 0 then r + 1
    else if x = c then 0 else -1

/-- `os.path.splitext` (POSIX): split off the extension at the last dot of the
base name, unless every character between the last separator and that dot is
itself a dot (leading dots are not extension separators). -/
def os_path_splitext (p : String) : String × String :=
  let chars := p.data
  let sepIndex := str_rfind chars '/'
  let dotIndex := str_rfind chars '.'
  if dotIndex > sepIndex then
    if ((chars.drop (sepIndex + 1).toNat).take (dotIndex - sepIndex - 1).toNat).any
        (fun ch => ch != '.') then
      (String.mk (chars.take dotIndex.toNat), String.mk (chars.drop dotIndex.toNat))
    else (p, "")
  else (p, "")

/-- `os.path.split` (POSIX): split at the last `/`; the head keeps no trailing
slashes unless it consists only of slashes. -/
def os_path_split (p : String) : String × String :=
  let chars := p.data
  let i := (str_rfind chars '/' + 1).toNat
  let head := chars.take i
  let tail := chars.drop i
  let head2 :=
    if head.length != 0 && head.any (fun c => c != '/') then
      (head.reverse.dropWhile (fun c => c == '/')).reverse
    else head
  (String.mk head2, String.mk tail)

/-- `_script_dir` of `os.path.split(os.path.splitext(script_path)[0])`. -/
def script_dir_of (script_path : String) : String :=
  (os_path_split (os_path_splitext script_path).fst).fst

/-- `script_file` of `os.path.split(os.path.splitext(script_path)[0])`. -/
def script_file_of (script_path : String) : String :=
  (os_path_split (os_path_splitext script_path).fst).snd

/-- The `NameError` message raised when the module has no `opencue_render`. -/
def missingRenderMsg (script_file _script_dir : String) : String :=
  "Module " ++ script_file ++ " from " ++ _script_dir ++
    " does not contain an opencue_render() function"

/-- `getCustomScriptParameters(script_path)`: resolve the path into directory
and module identifier, append the directory to `sys.path` (this happens
unconditionally, before any import), import the module, require the
`opencue_render` attribute, then walk the signature.  Returns the final
`sys.path` next to either the error raised or the pair
`(script_file, parameters)`. -/
def getCustomScriptParameters (importModule : String → Except String ScriptModule)
    (sys_path : List String) (script_path : String) :
    List String × Except String (String × List (String × Descriptor)) :=
  (sys_path ++ [script_dir_of script_path],
    match importModule (script_file_of script_path) with
    | Except.error e => Except.error e
    | Except.ok _script_module =>
      if "opencue_render" ∈ _script_module.attrs then
        match walkParams (ScriptModule.opencue_render_sig _script_module) [] with
        | Except.error e => Except.error e
        | Except.ok parameters =>
          Except.ok (script_file_of script_path, parameters)
      else
        Except.error (missingRenderMsg (script_file_of script_path)
          (script_dir_of script_path)))

/-- Truthiness of an `os.getenv(name, None)` result: `None` and the empty
string are falsy, any other string is truthy. -/
def isTruthyEnv (v : Option String) : Bool :=
  match v with
  | some s => s != ""
  | none => false

/-- `getPresetFacility()`: return `RENDER_TO`'s value when truthy, else
`FACILITY`'s value when truthy, else `None`. -/
def getPresetFacility (env : String → Option String) : Option String :=
  if isTruthyEnv (env "RENDER_TO") then env "RENDER_TO"
  else if isTruthyEnv (env "FACILITY") then env "FACILITY"
  else none


/-! ## Claim theorems -/

/-- C1: for every parameter whose annotation is exactly the tuple type and
whose candidate default value has exactly three elements, the descriptor
records `min` as element 0, `max` as element 1, and overwrites `value` with
element 2, while `type` remains the tuple annotation. -/
theorem processParam_tuple3_range (param : Param) (v m0 m1 v2 : PyVal)
    (hd : param.default = some v) (ha : param.annot = PyType.tuple)
    (h0 : pyGetItem v 0 = some m0) (h1 : pyGetItem v 1 = some m1)
    (h2 : pyGetItem v 2 = some v2) (hl : pyLen v = some 3) :
    processParam param = Except.ok ⟨param.name, v2, PyType.tuple, some m0, some m1⟩ := by
  have hv : pyDefaultValue param = v := by simp [pyDefaultValue, hd]
  simp [processParam, ha, hv, hl, h0, h1, h2]

/-- Witness for C1: `d: tuple=(0, 5, 3)` yields `min=0`, `max=5`, `value=3`. -/
theorem processParam_tuple3_range_witness :
    processParam ⟨"d", PyType.tuple, some (PyVal.tuple [PyVal.int 0, PyVal.int 5, PyVal.int 3])⟩ =
      Except.ok ⟨"d", PyVal.int 3, PyType.tuple, some (PyVal.int 0), some (PyVal.int 5)⟩ :=
  processParam_tuple3_range _ _ _ _ _ rfl rfl rfl rfl rfl rfl

/-- C2: a parameter with no explicit default gets its value from invoking the
type annotation as a zero-argument constructor; `str` gives `""`, `int` gives
`0`, `bool` gives `False`. -/
theorem processParam_no_default_constructs (param : Param) (hd : param.default = none) :
    processParam param =
      Except.ok ⟨param.name, pyConstruct param.annot, param.annot, none, none⟩ ∧
    pyConstruct PyType.str = PyVal.str "" ∧ pyConstruct PyType.int = PyVal.int 0 ∧
    pyConstruct PyType.bool = PyVal.bool false := by
  refine ⟨?_, rfl, rfl, rfl⟩
  have hv : pyDefaultValue param = pyConstruct param.annot := by simp [pyDefaultValue, hd]
  cases hann : param.annot <;> simp [processParam, hv, hann, pyConstruct, pyLen]

/-- Witness for C2: `c: bool` with no default gets value `False`. -/
theorem processParam_no_default_constructs_witness :
    processParam ⟨"c", PyType.bool, none⟩ =
      Except.ok ⟨"c", PyVal.bool false, PyType.bool, none, none⟩ := by
  have h := (processParam_no_default_constructs ⟨"c", PyType.bool, none⟩ rfl).1
  simpa [pyConstruct] using h

/-- C3: a tuple-annotated parameter whose default tuple has length other than
three gets no `min`/`max` enrichment and its value stays the raw tuple. -/
theorem processParam_tuple_non3_plain (name : String) (xs : List PyVal)
    (h : xs.length ≠ 3) :
    processParam ⟨name, PyType.tuple, some (PyVal.tuple xs)⟩ =
      Except.ok ⟨name, PyVal.tuple xs, PyType.tuple, none, none⟩ := by
  simp [processParam, pyDefaultValue, pyLen, h]

/-- Witness for C3: `e: tuple=(0, 5)` keeps the raw 2-tuple, no `min`/`max`. -/
theorem processParam_tuple_non3_plain_witness :
    processParam ⟨"e", PyType.tuple, some (PyVal.tuple [PyVal.int 0, PyVal.int 5])⟩ =
      Except.ok ⟨"e", PyVal.tuple [PyVal.int 0, PyVal.int 5], PyType.tuple, none, none⟩ :=
  processParam_tuple_non3_plain "e" [PyVal.int 0, PyVal.int 5] (by decide)

/-- C9: a tuple-annotated parameter whose (explicit) default supports no
length query makes the `len` test itself raise: the parameter walk errors
instead of producing a descriptor, and a whole extraction whose signature
contains only such a parameter returns that error instead of a schema. -/
theorem processParam_unsized_default_raises (name : String) (v : PyVal)
    (hv : pyLen v = none) :
    processParam ⟨name, PyType.tuple, some v⟩ = Except.error pyLenTypeError ∧
    ∀ (imp : String → Except String ScriptModule) (sp : List String) (path : String)
      (m : ScriptModule), imp (script_file_of path) = Except.ok m →
      "opencue_render" ∈ m.attrs →
      ScriptModule.opencue_render_sig m = [⟨name, PyType.tuple, some v⟩] →
      (getCustomScriptParameters imp sp path).snd = Except.error pyLenTypeError := by
  have hfail : processParam ⟨name, PyType.tuple, some v⟩ = Except.error pyLenTypeError := by
    simp [processParam, pyDefaultValue, hv]
  refine ⟨hfail, ?_⟩
  intro imp sp path m him hattr hsig
  simp [getCustomScriptParameters, him, hattr, hsig, walkParams, hfail]

/-- Witness for C9: annotation `tuple` with explicit default `7` raises the
length `TypeError`. -/
theorem processParam_unsized_default_raises_witness :
    processParam ⟨"x", PyType.tuple, some (PyVal.int 7)⟩ = Except.error pyLenTypeError :=
  (processParam_unsized_default_raises "x" (PyVal.int 7) rfl).1

/-- A module exposing `opencue_render(a: str, b: int=5)` and an import oracle
resolving every identifier to it. -/
def demoModuleAB : ScriptModule :=
  ⟨["opencue_render"], [⟨"a", PyType.str, none⟩, ⟨"b", PyType.int, some (PyVal.int 5)⟩]⟩

/-- Import oracle resolving every identifier to `demoModuleAB`. -/
def demoImportAB : String → Except String ScriptModule := fun _ => Except.ok demoModuleAB

/-- The schema extracted from `demoModuleAB`. -/
def demoSchemaAB : List (String × Descriptor) :=
  [("a", ⟨"a", PyVal.str "", PyType.str, none, none⟩),
   ("b", ⟨"b", PyVal.int 5, PyType.int, none, none⟩)]

/-- A module whose attributes do not include `opencue_render`. -/
def demoModuleNoRender : ScriptModule := ⟨["helper"], []⟩

/-- Import oracle resolving every identifier to `demoModuleNoRender`. -/
def demoImportNoRender : String → Except String ScriptModule :=
  fun _ => Except.ok demoModuleNoRender

/-- Import oracle on which every import fails (module not found). -/
def demoImportFail : String → Except String ScriptModule :=
  fun _ => Except.error "ModuleNotFoundError"

/-- The `NameError` message names both the module identifier and its source
directory (as substrings). -/
theorem missingRenderMsg_mentions (f d : String) :
    f.data <:+: (missingRenderMsg f d).data ∧ d.data <:+: (missingRenderMsg f d).data := by
  constructor
  · refine ⟨"Module ".data,
      (" from " ++ d ++ " does not contain an opencue_render() function").data, ?_⟩
    simp [missingRenderMsg, String.data_append]
  · refine ⟨("Module " ++ f ++ " from ").data,
      " does not contain an opencue_render() function".data, ?_⟩
    simp [missingRenderMsg, String.data_append]

/-- C4: when the imported module has no `opencue_render` attribute, extraction
returns the `NameError` whose message names both the module identifier and its
source directory, and no schema is constructed. -/
theorem getCustomScriptParameters_missing_render_error
    (imp : String → Except String ScriptModule) (sp : List String) (path : String)
    (m : ScriptModule) (him : imp (script_file_of path) = Except.ok m)
    (hno : "opencue_render" ∉ m.attrs) :
    (getCustomScriptParameters imp sp path).snd =
      Except.error (missingRenderMsg (script_file_of path) (script_dir_of path)) ∧
    (script_file_of path).data <:+:
      (missingRenderMsg (script_file_of path) (script_dir_of path)).data ∧
    (script_dir_of path).data <:+:
      (missingRenderMsg (script_file_of path) (script_dir_of path)).data := by
  refine ⟨?_, missingRenderMsg_mentions _ _⟩
  simp [getCustomScriptParameters, him, hno]

/-- Witness for C4: a module exposing only `helper` makes extraction of
`/tools/bad.py` fail with the message naming `bad` and `/tools`. -/
theorem getCustomScriptParameters_missing_render_error_witness :
    (getCustomScriptParameters demoImportNoRender [] "/tools/bad.py").snd =
      Except.error (missingRenderMsg "bad" "/tools") := by
  have h := (getCustomScriptParameters_missing_render_error demoImportNoRender [] "/tools/bad.py"
    demoModuleNoRender rfl (by decide)).1
  have e1 : script_file_of "/tools/bad.py" = "bad" := by decide
  have e2 : script_dir_of "/tools/bad.py" = "/tools" := by decide
  rw [e1, e2] at h
  exact h

/-- C6: the module identifier returned by extraction is the base name of the
path after stripping the extension (extension stripped first via
`os_path_splitext`, then the directory/base split via `os_path_split`), and
the containing directory is appended to the process-wide module search path. -/
theorem getCustomScriptParameters_identity_resolution
    (imp : String → Except String ScriptModule) (sp : List String) (path : String) :
    (getCustomScriptParameters imp sp path).fst =
      sp ++ [(os_path_split (os_path_splitext path).fst).fst] ∧
    ∀ mod_name sch,
      (getCustomScriptParameters imp sp path).snd = Except.ok (mod_name, sch) →
      mod_name = (os_path_split (os_path_splitext path).fst).snd := by
  refine ⟨rfl, ?_⟩
  intro mod_name sch h
  cases himp : imp (script_file_of path) with
  | error e => simp [getCustomScriptParameters, himp] at h
  | ok m =>
    simp only [getCustomScriptParameters, himp] at h
    split at h
    · split at h
      · exact absurd h (by simp)
      · simp only [Except.ok.injEq, Prod.mk.injEq] at h
        exact h.1.symm
    · exact absurd h (by simp)

/-- Witness for C6: extracting `/shows/tools/my_script.py` returns the
identifier `my_script`. -/
theorem getCustomScriptParameters_identity_resolution_witness :
    "my_script" = (os_path_split (os_path_splitext "/shows/tools/my_script.py").fst).snd :=
  (getCustomScriptParameters_identity_resolution demoImportAB [] "/shows/tools/my_script.py").2
    "my_script" demoSchemaAB rfl

/-- C10: the search-path append happens unconditionally before import and
entry-point check: even a failing extraction returns the search path extended
by the script's directory, never the unchanged one. -/
theorem getCustomScriptParameters_path_mutated_on_failure
    (imp : String → Except String ScriptModule) (sp : List String) (path : String)
    (e : String)
    (_herr : (getCustomScriptParameters imp sp path).snd = Except.error e) :
    (getCustomScriptParameters imp sp path).fst = sp ++ [script_dir_of path] ∧
    (getCustomScriptParameters imp sp path).fst ≠ sp := by
  refine ⟨rfl, ?_⟩
  intro hcontra
  rw [show (getCustomScriptParameters imp sp path).fst = sp ++ [script_dir_of path] from rfl]
    at hcontra
  have hlen := congrArg List.length hcontra
  simp at hlen

/-- Witness for C10: a failing import of `/tools/gone.py` still leaves
`/tools` appended to the search path. -/
theorem getCustomScriptParameters_path_mutated_on_failure_witness :
    (getCustomScriptParameters demoImportFail ["/usr/lib"] "/tools/gone.py").fst =
      ["/usr/lib"] ++ [script_dir_of "/tools/gone.py"] ∧
    (getCustomScriptParameters demoImportFail ["/usr/lib"] "/tools/gone.py").fst ≠
      ["/usr/lib"] :=
  getCustomScriptParameters_path_mutated_on_failure demoImportFail ["/usr/lib"]
    "/tools/gone.py" "ModuleNotFoundError" rfl

/-- Environment where `RENDER_TO` is set to the empty string and `FACILITY`
to `cloud`. -/
def envEmptyRenderTo : String → Option String := fun k =>
  if k = "RENDER_TO" then some "" else if k = "FACILITY" then some "cloud" else none

/-- Counterexample to C8 as stated: with `RENDER_TO` set (to the empty
string) and `FACILITY` set to `cloud`, the lookup does not return
`RENDER_TO`'s value; Python truthiness skips empty values. -/
theorem getPresetFacility_empty_string_counterexample :
    envEmptyRenderTo "RENDER_TO" = some "" ∧
    getPresetFacility envEmptyRenderTo = some "cloud" ∧
    getPresetFacility envEmptyRenderTo ≠ some "" := by
  refine ⟨rfl, by decide, by decide⟩

/-- C8 (amended): `RENDER_TO` wins when set to a non-empty string, else
`FACILITY` when set to a non-empty string, else no override; a variable that
is unset or set to the empty string is passed over. -/
theorem getPresetFacility_precedence (env : String → Option String) :
    (∀ v, env "RENDER_TO" = some v → v ≠ "" → getPresetFacility env = some v) ∧
    ((env "RENDER_TO" = none ∨ env "RENDER_TO" = some "") →
      ∀ v, env "FACILITY" = some v → v ≠ "" → getPresetFacility env = some v) ∧
    ((env "RENDER_TO" = none ∨ env "RENDER_TO" = some "") →
      (env "FACILITY" = none ∨ env "FACILITY" = some "") →
      getPresetFacility env = none) := by
  refine ⟨?_, ?_, ?_⟩
  · intro v hv hne
    simp [getPresetFacility, isTruthyEnv, hv, hne]
  · intro hrt v hv hne
    rcases hrt with h | h <;> simp [getPresetFacility, isTruthyEnv, h, hv, hne]
  · intro hrt hf
    rcases hrt with h | h <;> rcases hf with h2 | h2 <;>
      simp [getPresetFacility, isTruthyEnv, h, h2]

/-- Environment with both variables set to non-empty values. -/
def envBothSet : String → Option String := fun k =>
  if k = "RENDER_TO" then some "local" else if k = "FACILITY" then some "cloud" else none

/-- Witness for C8 (amended): with both variables non-empty, `RENDER_TO`
wins. -/
theorem getPresetFacility_precedence_witness :
    getPresetFacility envBothSet = some "local" :=
  (getPresetFacility_precedence envBothSet).1 "local" (by decide) (by decide)

/-- Every descriptor the walk produces carries the parameter's name, has
`min`/`max` together or not at all, and has them only under the tuple
annotation. -/
theorem processParam_ok_fields (param : Param) (d : Descriptor)
    (h : processParam param = Except.ok d) :
    d.name = param.name ∧ (d.min = none ↔ d.max = none) ∧
    (d.min ≠ none → d.type = PyType.tuple) := by
  unfold processParam at h
  split at h
  next hann =>
    split at h
    next => exact absurd h (by simp)
    next n hlen =>
      split at h
      next hn =>
        split at h
        next v0 v1 v2 hg0 hg1 hg2 =>
          injection h with h2
          subst h2
          exact ⟨rfl, by simp, fun _ => hann⟩
        next => exact absurd h (by simp)
      next hn =>
        injection h with h2
        subst h2
        exact ⟨rfl, by simp, by simp⟩
  next hann =>
    injection h with h2
    subst h2
    exact ⟨rfl, by simp, by simp⟩

/-- Inserting a key absent from the dictionary appends the binding. -/
theorem dictInsert_fresh (d : List (String × Descriptor)) (key : String) (v : Descriptor)
    (h : ∀ kv ∈ d, kv.fst ≠ key) : dictInsert d key v = d ++ [(key, v)] := by
  have hb : (d.any fun kv => kv.fst == key) = false := by
    rw [List.any_eq_false]
    intro kv hkv
    simpa using h kv hkv
  simp [dictInsert, hb]

/-- Shape of a successful parameter walk: with pairwise-distinct parameter
names that are also fresh for the accumulator, the resulting keys are the
accumulator's keys followed by the parameter names in declaration order, and
every new entry is the descriptor `processParam` produces for its
parameter. -/
theorem walkParams_ok_spec : ∀ (ps : List Param) (acc sch : List (String × Descriptor)),
    walkParams ps acc = Except.ok sch →
    (∀ p ∈ ps, ∀ kv ∈ acc, kv.fst ≠ p.name) →
    (ps.map Param.name).Nodup →
    sch.map Prod.fst = acc.map Prod.fst ++ ps.map Param.name ∧
    ∀ kv ∈ sch, kv ∈ acc ∨ ∃ p ∈ ps, kv.fst = p.name ∧ processParam p = Except.ok kv.snd := by
  intro ps
  induction ps with
  | nil =>
    intro acc sch h _ _
    injection h with h2
    subst h2
    exact ⟨by simp, fun kv hkv => Or.inl hkv⟩
  | cons p rest ih =>
    intro acc sch h hfresh hnd
    unfold walkParams at h
    cases hp : processParam p with
    | error e => rw [hp] at h; exact absurd h (by simp)
    | ok dsc =>
      rw [hp] at h
      dsimp only at h
      have hfr : ∀ kv ∈ acc, kv.fst ≠ p.name :=
        fun kv hkv => hfresh p (List.mem_cons_self _ _) kv hkv
      rw [dictInsert_fresh acc p.name dsc hfr] at h
      have hnotmem : p.name ∉ rest.map Param.name := (List.nodup_cons.mp hnd).1
      have hnd' : (rest.map Param.name).Nodup := (List.nodup_cons.mp hnd).2
      have hfresh' : ∀ q ∈ rest, ∀ kv ∈ acc ++ [(p.name, dsc)], kv.fst ≠ q.name := by
        intro q hq kv hkv
        rcases List.mem_append.mp hkv with hkv1 | hkv2
        · exact hfresh q (List.mem_cons_of_mem _ hq) kv hkv1
        · simp only [List.mem_singleton] at hkv2
          rw [hkv2]
          intro hcon
          have hqmem : q.name ∈ rest.map Param.name := List.mem_map_of_mem Param.name hq
          rw [show ((p.name, dsc) : String × Descriptor).fst = p.name from rfl] at hcon
          rw [← hcon] at hqmem
          exact hnotmem hqmem
      obtain ⟨hmap, hmem⟩ := ih (acc ++ [(p.name, dsc)]) sch h hfresh' hnd'
      constructor
      · rw [hmap]; simp
      · intro kv hkv
        rcases hmem kv hkv with hin | ⟨q, hq, hname, hproc⟩
        · rcases List.mem_append.mp hin with h1 | h2
          · exact Or.inl h1
          · right
            simp only [List.mem_singleton] at h2
            exact ⟨p, List.mem_cons_self _ _, by rw [h2], by rw [h2]; exact hp⟩
        · exact Or.inr ⟨q, List.mem_cons_of_mem _ hq, hname, hproc⟩

/-- C5: a successful extraction maps each parameter of the entry point to
exactly one descriptor — the schema's keys are exactly the parameter names in
declaration order, so the cardinalities agree and nothing is dropped or
merged — each descriptor's recorded name equals its key, and `min`/`max`
appear together or not at all, and only under the tuple annotation.  (Name,
type and value are total fields of `Descriptor`, hence always present.) -/
theorem getCustomScriptParameters_schema_invariants
    (imp : String → Except String ScriptModule) (sp : List String) (path : String)
    (m : ScriptModule) (mod_name : String) (sch : List (String × Descriptor))
    (him : imp (script_file_of path) = Except.ok m)
    (hnd : ((ScriptModule.opencue_render_sig m).map Param.name).Nodup)
    (hok : (getCustomScriptParameters imp sp path).snd = Except.ok (mod_name, sch)) :
    sch.map Prod.fst = (ScriptModule.opencue_render_sig m).map Param.name ∧
    sch.length = (ScriptModule.opencue_render_sig m).length ∧
    ∀ kv ∈ sch, kv.snd.name = kv.fst ∧ (kv.snd.min = none ↔ kv.snd.max = none) ∧
      (kv.snd.min ≠ none → kv.snd.type = PyType.tuple) := by
  have hw : walkParams (ScriptModule.opencue_render_sig m) [] = Except.ok sch := by
    simp only [getCustomScriptParameters, him] at hok
    split at hok
    next =>
      split at hok
      next => exact absurd hok (by simp)
      next params hwp =>
        simp only [Except.ok.injEq, Prod.mk.injEq] at hok
        rw [hwp, hok.2]
    next => exact absurd hok (by simp)
  obtain ⟨hmap, hmem⟩ :=
    walkParams_ok_spec (ScriptModule.opencue_render_sig m) [] sch hw (by simp) hnd
  refine ⟨by simpa using hmap, ?_, ?_⟩
  · have hlen := congrArg List.length hmap
    simpa using hlen
  · intro kv hkv
    rcases hmem kv hkv with hin | ⟨q, _, hname, hproc⟩
    · exact absurd hin (by simp)
    · obtain ⟨hn, hiff, htp⟩ := processParam_ok_fields q kv.snd hproc
      exact ⟨by rw [hn, hname], hiff, htp⟩

/-- Witness for C5: the schema of `opencue_render(a: str, b: int=5)` has keys
`a`, `b`, in order. -/
theorem getCustomScriptParameters_schema_invariants_witness :
    demoSchemaAB.map Prod.fst =
      (ScriptModule.opencue_render_sig demoModuleAB).map Param.name :=
  (getCustomScriptParameters_schema_invariants demoImportAB [] "/shows/tools/my_script.py"
    demoModuleAB (script_file_of "/shows/tools/my_script.py") demoSchemaAB rfl
    (by decide) rfl).1

/-- C7: extraction of a script exposing `opencue_render(a: str, b: int=5)`
returns exactly two entries, `a` with constructed value `""` before `b` with
its declared default `5`. -/
theorem getCustomScriptParameters_str_int_example
    (imp : String → Except String ScriptModule) (sp : List String) (path : String)
    (m : ScriptModule) (him : imp (script_file_of path) = Except.ok m)
    (hattr : "opencue_render" ∈ m.attrs)
    (hsig : ScriptModule.opencue_render_sig m =
      [⟨"a", PyType.str, none⟩, ⟨"b", PyType.int, some (PyVal.int 5)⟩]) :
    (getCustomScriptParameters imp sp path).snd =
      Except.ok (script_file_of path,
        [("a", ⟨"a", PyVal.str "", PyType.str, none, none⟩),
         ("b", ⟨"b", PyVal.int 5, PyType.int, none, none⟩)]) := by
  have hw : walkParams [⟨"a", PyType.str, none⟩, ⟨"b", PyType.int, some (PyVal.int 5)⟩] [] =
      Except.ok [("a", ⟨"a", PyVal.str "", PyType.str, none, none⟩),
        ("b", ⟨"b", PyVal.int 5, PyType.int, none, none⟩)] := rfl
  simp [getCustomScriptParameters, him, hattr, hsig, hw]

/-- Witness for C7: a concrete import of `/shows/tools/my_script.py` yields
the two-entry schema in declaration order. -/
theorem getCustomScriptParameters_str_int_example_witness :
    (getCustomScriptParameters demoImportAB [] "/shows/tools/my_script.py").snd =
      Except.ok (script_file_of "/shows/tools/my_script.py",
        [("a", ⟨"a", PyVal.str "", PyType.str, none, none⟩),
         ("b", ⟨"b", PyVal.int 5, PyType.int, none, none⟩)]) :=
  getCustomScriptParameters_str_int_example demoImportAB [] "/shows/tools/my_script.py"
    demoModuleAB rfl (by decide) rfl
